import Mathlib

/-!
Shallow embedding of the lightning-pumpfun-token-creator execution engine.

Sources embedded here:
- `src/utils/types.ts` : `ExecutionStrategy`, `ExecutionResult`, `MAX_RETRY_ATTEMPTS`.
- `src/utils/config.ts` (ConfigManager) : executor configuration and the
  provider-availability checks `isJitoEnabled`, `isBloxRouteEnabled`,
  `isNozomiEnabled`, `getEnabledProviders`.
- `src/integrations/JitoExecutor.ts`, `src/integrations/BloxRouteExecutor.ts`,
  `src/integrations/NozomiExecutor.ts` : the per-channel `executeTransaction`
  methods. Each method wraps its whole body in try/catch and always returns
  an `ExecutionResult` value (it never rejects); network and crypto outcomes
  (blockhash fetch, submission, confirmation) are inputs of the embedding.
- `src/core/TransactionExecutor.ts` : `executeTransaction`,
  `executeWithStrategy`, `executeHybrid`, `executeAuto`, `executeFallback`,
  `promiseAny`, `determineOptimalStrategy`, `cloneTransaction`.

Modelling conventions: JavaScript reference mutation of a `Transaction`
object is explicit state passing (each executor returns the final state of
the object it was handed); a thrown exception is `Except.error`; a promise
that has settled is a pair of its settle time and its settled value, and
the race picks the earliest settle time (earliest list position on a tie,
matching handler attachment order). Wall-clock durations (`executionTime`)
are outside the embedding and stay `none`. Monetary amounts (SOL floats in
the source) are modelled as rationals.
-/

namespace PumpFun

/-- The `ExecutionStrategy` enum of src/utils/types.ts. -/
inductive ExecutionStrategy where
  | JITO_ONLY
  | BLOXROUTE_ONLY
  | NOZOMI_ONLY
  | HYBRID
  | FALLBACK
  | AUTO
deriving DecidableEq, Repr

/-- The `ExecutionResult` interface of src/utils/types.ts. `executionTime`
is carried for shape fidelity but never given a value (wall-clock time is
outside the embedding). -/
structure ExecutionResult where
  success : Bool
  signature : Option String := none
  error : Option String := none
  strategy : Option ExecutionStrategy := none
  executionTime : Option Nat := none
  retryCount : Option Nat := none
  provider : Option String := none
deriving DecidableEq, Repr

/-- `MAX_RETRY_ATTEMPTS` from src/utils/types.ts. -/
def MAX_RETRY_ATTEMPTS : Nat := 3

/-- `LAMPORTS_PER_SOL` from @solana/web3.js, as a rational. -/
def LAMPORTS_PER_SOL : ℚ := 1000000000

/-- One instruction of a Solana transaction: either an opaque user
instruction of the caller payload, or a `SystemProgram.transfer` tip
instruction appended by an executor. -/
inductive Instruction where
  | user (tag : Nat)
  | transfer (toPubkey : String) (lamports : ℚ)
deriving DecidableEq, Repr

/-- The mutable state of a web3.js `Transaction` object, as far as the
executors touch it: instruction list, `recentBlockhash`, `feePayer` and
the signatures produced by `sign`. -/
structure Transaction where
  instructions : List Instruction
  recentBlockhash : Option String := none
  feePayer : Option String := none
  signedBy : List String := []
deriving DecidableEq, Repr

/-- JavaScript `x || d` for an optional string: `undefined` and the empty
string are falsy and fall through to the default. -/
def jsOr (x : Option String) (d : String) : String :=
  match x with
  | some s => if s = "" then d else s
  | none => d

namespace ConfigManager

/-- The executor-relevant slice of ConfigManager state (src/utils/config.ts):
the three use-flags and amounts of `executorConfig`, the BloxRoute auth
header, the Nozomi API key, `maxRetries`, and the wallet public key. -/
structure Config where
  useJito : Bool
  useBloxRoute : Bool
  useNozomi : Bool
  jitoTipAmount : ℚ
  bloxRouteFee : ℚ
  nozomiTipAmount : ℚ
  bloxRouteAuthHeader : String
  nozomiApiKey : String
  maxRetries : Nat
  walletPubkey : String
deriving DecidableEq, Repr

/-- `ConfigManager.isJitoEnabled`: `useJito && jitoConfig.tipAmount > 0`
(the Jito config tipAmount is initialized from `executorConfig.jitoTipAmount`). -/
def isJitoEnabled (c : Config) : Bool :=
  c.useJito && decide (0 < c.jitoTipAmount)

/-- `ConfigManager.isBloxRouteEnabled`: `useBloxRoute && authHeader !== '' && fee > 0`. -/
def isBloxRouteEnabled (c : Config) : Bool :=
  c.useBloxRoute && !(c.bloxRouteAuthHeader == "") && decide (0 < c.bloxRouteFee)

/-- `ConfigManager.isNozomiEnabled`: `useNozomi && apiKey !== '' && tipAmount > 0`. -/
def isNozomiEnabled (c : Config) : Bool :=
  c.useNozomi && !(c.nozomiApiKey == "") && decide (0 < c.nozomiTipAmount)

/-- `ConfigManager.getEnabledProviders`: pushes the provider names in the
fixed order Jito, BloxRoute, Nozomi. -/
def getEnabledProviders (c : Config) : List String :=
  (if isJitoEnabled c then ["Jito"] else []) ++
  (if isBloxRouteEnabled c then ["BloxRoute"] else []) ++
  (if isNozomiEnabled c then ["Nozomi"] else [])

end ConfigManager

open ConfigManager

namespace JitoExecutor

/-- Outcomes of the network interactions of one `JitoExecutor.executeTransaction`
run: the `getLatestBlockhash` call (which may throw), whether any Jito
endpoint accepted the bundle, the aggregated bundle error, the bs58-encoded
main transaction signature, and `confirmation.value.err`. -/
structure Env where
  latestBlockhash : Except String (String × Nat)
  bundleAccepted : Bool
  bundleError : Option String
  mainTxSig : String
  confirmErr : Option String

/-- `JitoExecutor.executeTransaction` (src/integrations/JitoExecutor.ts).
The whole body is wrapped in try/catch, so the method always resolves with
an `ExecutionResult`. The second component is the final state of the
`Transaction` object that was passed in: when the blockhash fetch succeeds,
the method sets `recentBlockhash` and `feePayer` on it and signs it. -/
def executeTransaction (c : Config) (env : Env) (tx : Transaction)
    (signers : List String) : ExecutionResult × Transaction :=
  match env.latestBlockhash with
  | .error e =>
      ({ success := false, error := some ("Jito execution failed: " ++ e),
         provider := some "jito" }, tx)
  | .ok (blockhash, _lastValidBlockHeight) =>
      let tx1 : Transaction :=
        { tx with recentBlockhash := some blockhash,
                  feePayer := some c.walletPubkey, signedBy := signers }
      if env.bundleAccepted then
        match env.confirmErr with
        | some err =>
            ({ success := false, error := some ("Transaction failed: " ++ err),
               provider := some "jito" }, tx1)
        | none =>
            ({ success := true, signature := some env.mainTxSig,
               provider := some "jito" }, tx1)
      else
        ({ success := false,
           error := some (jsOr env.bundleError "No Jito validators accepted the bundle"),
           provider := some "jito" }, tx1)

end JitoExecutor

namespace BloxRouteExecutor

/-- The BloxRoute tip wallet hardcoded in src/integrations/BloxRouteExecutor.ts. -/
def bloxRouteTipWallet : String := "HWEoBxYs7ssKuudEjzjmpfJVX7Dvi7wescFsVx2L5yoY"

/-- Outcomes of the network interactions of one
`BloxRouteExecutor.executeTransaction` run: the `getLatestBlockhash` call,
the `sendRawTransaction` call, and `confirmation.value.err`. -/
structure Env where
  latestBlockhash : Except String (String × Nat)
  sendResult : Except String String
  confirmErr : Option String

/-- `BloxRouteExecutor.executeTransaction` (src/integrations/BloxRouteExecutor.ts).
Always resolves (catch-all). The second component is the final state of the
passed `Transaction` object: once the blockhash fetch succeeds the method
sets `recentBlockhash` and `feePayer` on it, appends the tip transfer when
`fee * LAMPORTS_PER_SOL > 0`, and signs it — these mutations persist even
when the later submission fails. -/
def executeTransaction (c : Config) (env : Env) (tx : Transaction)
    (signers : List String) : ExecutionResult × Transaction :=
  if c.bloxRouteAuthHeader = "" then
    ({ success := false,
       error := some "BloxRoute execution failed: BloxRoute auth header not configured",
       provider := some "bloxroute" }, tx)
  else
    match env.latestBlockhash with
    | .error e =>
        ({ success := false, error := some ("BloxRoute execution failed: " ++ e),
           provider := some "bloxroute" }, tx)
    | .ok (blockhash, _lastValidBlockHeight) =>
        let tx1 : Transaction :=
          { tx with recentBlockhash := some blockhash,
                    feePayer := some c.walletPubkey }
        let tipAmount : ℚ := c.bloxRouteFee * LAMPORTS_PER_SOL
        let tx2 : Transaction :=
          if 0 < tipAmount then
            { tx1 with instructions :=
                tx1.instructions ++ [Instruction.transfer bloxRouteTipWallet tipAmount] }
          else tx1
        let tx3 : Transaction := { tx2 with signedBy := signers }
        match env.sendResult with
        | .error e =>
            ({ success := false, error := some ("BloxRoute execution failed: " ++ e),
               provider := some "bloxroute" }, tx3)
        | .ok sig =>
            match env.confirmErr with
            | some err =>
                ({ success := false, error := some ("Transaction failed: " ++ err),
                   provider := some "bloxroute" }, tx3)
            | none =>
                ({ success := true, signature := some sig,
                   provider := some "bloxroute" }, tx3)

end BloxRouteExecutor

namespace NozomiExecutor

/-- Shape of the Nozomi JSON-RPC response body that the executor inspects:
`response.data.result` and `response.data.error.message`. -/
structure Response where
  result : Option String
  errorMessage : Option String

/-- Outcomes of the network interactions of one
`NozomiExecutor.executeTransaction` run: the chosen tip validator, the
`getLatestBlockhash` call, and the axios POST (which may throw). -/
structure Env where
  validator : String
  latestBlockhash : Except String (String × Nat)
  postResult : Except String Response

/-- `NozomiExecutor.executeTransaction` (src/integrations/NozomiExecutor.ts).
Always resolves (catch-all). Unlike the Jito and BloxRoute executors, this
one clones the passed transaction first and mutates only the clone, so the
second component (the final state of the passed object) is always `tx`. -/
def executeTransaction (c : Config) (env : Env) (tx : Transaction)
    (signers : List String) : ExecutionResult × Transaction :=
  let nozomiTx : Transaction := tx
  let tipAmount : ℚ := c.nozomiTipAmount * LAMPORTS_PER_SOL
  let nozomiTx1 : Transaction :=
    if 0 < tipAmount then
      { nozomiTx with instructions :=
          nozomiTx.instructions ++ [Instruction.transfer env.validator tipAmount] }
    else nozomiTx
  match env.latestBlockhash with
  | .error e =>
      ({ success := false, error := some ("Nozomi execution failed: " ++ e),
         provider := some "nozomi" }, tx)
  | .ok (blockhash, _lastValidBlockHeight) =>
      let _nozomiTx2 : Transaction :=
        { nozomiTx1 with recentBlockhash := some blockhash,
                         feePayer := some c.walletPubkey, signedBy := signers }
      if c.nozomiApiKey = "" then
        ({ success := false, error := some "Nozomi API key not configured",
           provider := some "nozomi" }, tx)
      else
        match env.postResult with
        | .error e =>
            ({ success := false, error := some ("Nozomi execution failed: " ++ e),
               provider := some "nozomi" }, tx)
        | .ok resp =>
            match resp.result with
            | some sig =>
                ({ success := true, signature := some sig,
                   provider := some "nozomi" }, tx)
            | none =>
                ({ success := false,
                   error := some ("Nozomi submission failed: " ++
                     jsOr resp.errorMessage "Nozomi submission failed"),
                   provider := some "nozomi" }, tx)

end NozomiExecutor

namespace TransactionExecutor

/-- `TransactionExecutor.cloneTransaction`:
`Transaction.from(transaction.serialize(...))` produces a structural copy.
With explicit state passing a copy is the same value; what matters is that
mutations of the copy are never threaded back into the original object. -/
def cloneTransaction (t : Transaction) : Transaction := t

/-- Outcomes of the network interactions of one fallback attempt inside
`TransactionExecutor.executeFallback`: the fresh `getLatestBlockhash` call,
the `sendRawTransaction` call, and `confirmation.value.err`. -/
structure FallbackAttemptEnv where
  latestBlockhash : Except String (String × Nat)
  sendResult : Except String String
  confirmErr : Option String

/-- One iteration body of the `executeFallback` while-loop up to its
try/catch: error = the caught exception message, ok = the signature.
The attempt clones the transaction and mutates only the clone, so the
caller object is untouched. -/
def fallbackAttempt (env : FallbackAttemptEnv) : Except String String :=
  match env.latestBlockhash with
  | .error e => .error e
  | .ok (_blockhash, _lastValidBlockHeight) =>
      match env.sendResult with
      | .error e => .error e
      | .ok sig =>
          match env.confirmErr with
          | some err => .error ("Transaction failed: " ++ err)
          | none => .ok sig

/-- The environment of one whole `executeTransaction` call: per-channel
network outcomes, the time at which each channel promise settles, and the
network outcomes of each fallback attempt (indexed by the 0-based value of
`retries` at which the attempt runs). -/
structure NetworkEnv where
  jito : JitoExecutor.Env
  jitoTime : Nat
  blox : BloxRouteExecutor.Env
  bloxTime : Nat
  nozomi : NozomiExecutor.Env
  nozomiTime : Nat
  fallback : Nat → FallbackAttemptEnv

/-- The `while (retries < maxRetries)` loop of `executeFallback`, with the
`retries` counter and the list of backoff delays requested so far made
explicit. `attempt n` is the outcome of the attempt that runs while
`retries = n`. The fuel argument only bounds recursion; it never runs out
when it starts above `maxRetries` (each iteration increments `retries`). -/
def fallbackLoop (attempt : Nat → Except String String) (maxRetries : Nat) :
    Nat → Nat → List Nat → ExecutionResult × List Nat
  | 0, retries, delays =>
      ({ success := false, error := some "Maximum retry attempts reached",
         provider := some "fallback", retryCount := some retries }, delays)
  | fuel + 1, retries, delays =>
      if retries < maxRetries then
        match attempt retries with
        | .ok sig =>
            ({ success := true, signature := some sig,
               provider := some "fallback", retryCount := some retries }, delays)
        | .error e =>
            let retries1 := retries + 1
            if maxRetries ≤ retries1 then
              ({ success := false,
                 error := some ("Fallback execution failed: " ++ e),
                 provider := some "fallback", retryCount := some retries1 }, delays)
            else
              fallbackLoop attempt maxRetries fuel retries1
                (delays ++ [1000 * retries1])
      else
        ({ success := false, error := some "Maximum retry attempts reached",
           provider := some "fallback", retryCount := some retries }, delays)

/-- `this.config.executorConfig.maxRetries || MAX_RETRY_ATTEMPTS`: the
JavaScript or-default, where 0 is falsy. -/
def effectiveMaxRetries (c : Config) : Nat :=
  if c.maxRetries = 0 then MAX_RETRY_ATTEMPTS else c.maxRetries

/-- `TransactionExecutor.executeFallback`: bounded retry loop over fresh
clones of the transaction; returns the result together with the list of
backoff delays requested via `this.delay(1000 * retries)`. -/
def executeFallback (c : Config) (envs : Nat → FallbackAttemptEnv) :
    ExecutionResult × List Nat :=
  let maxRetries := effectiveMaxRetries c
  fallbackLoop (fun n => fallbackAttempt (envs n)) maxRetries (maxRetries + 1) 0 []

/-- The fulfilled promises of a settled list, with their settle times. -/
def settledOk (ps : List (Nat × Except String ExecutionResult)) :
    List (Nat × ExecutionResult) :=
  ps.filterMap fun p =>
    match p.2 with
    | .ok r => some (p.1, r)
    | .error _ => none

/-- The entry with the smallest settle time; on a tie the earlier list
position wins, matching the order in which `promiseAny` attaches its
resolution handlers. -/
def firstByTime : List (Nat × ExecutionResult) → Option (Nat × ExecutionResult)
  | [] => none
  | x :: xs => some (xs.foldl (fun best y => if y.1 < best.1 then y else best) x)

/-- `TransactionExecutor.promiseAny`: with no promises it rejects with
"No promises provided"; otherwise it resolves with the first promise to
fulfill, and rejects with "All promises rejected" only when every promise
rejects. -/
def promiseAny (ps : List (Nat × Except String ExecutionResult)) :
    Except String ExecutionResult :=
  if ps.isEmpty then .error "No promises provided"
  else
    match firstByTime (settledOk ps) with
    | some tr => .ok tr.2
    | none => .error "All promises rejected"

/-- Result of one strategy dispatch: the settled value (or the thrown
`ExecutorError` message), the final state of the caller transaction
object, and whether `executeFallback` was invoked along the way. -/
structure DispatchOutcome where
  result : Except String ExecutionResult
  finalTx : Transaction
  usedFallback : Bool
deriving Repr

/-- The promise list built at the top of `executeHybrid`: one promise per
enabled provider, each operating on a private clone of the transaction and
tagging its result with the provider name. Each channel promise is always
fulfilled (the executors are catch-all), hence modelled as `.ok`. -/
def hybridPromises (c : Config) (env : NetworkEnv) (tx : Transaction)
    (signers : List String) : List (Nat × Except String ExecutionResult) :=
  (if isJitoEnabled c then
      [(env.jitoTime, .ok
        { (JitoExecutor.executeTransaction c env.jito (cloneTransaction tx) signers).1
          with provider := some "jito" })]
     else []) ++
    (if isBloxRouteEnabled c then
      [(env.bloxTime, .ok
        { (BloxRouteExecutor.executeTransaction c env.blox (cloneTransaction tx) signers).1
          with provider := some "bloxroute" })]
     else []) ++
    (if isNozomiEnabled c then
      [(env.nozomiTime, .ok
        { (NozomiExecutor.executeTransaction c env.nozomi (cloneTransaction tx) signers).1
          with provider := some "nozomi" })]
     else [])

/-- `TransactionExecutor.executeHybrid`: races the per-provider promises
with `promiseAny` and runs `executeFallback` only when `promiseAny`
rejects; with an empty promise list it throws an `ExecutorError` before
racing. The caller transaction object is returned unchanged: only clones
are handed to the channel executors. -/
def executeHybrid (c : Config) (env : NetworkEnv) (tx : Transaction)
    (signers : List String) : DispatchOutcome :=
  let executors := hybridPromises c env tx signers
  if executors.isEmpty then
    { result := .error "No providers are enabled for hybrid execution",
      finalTx := tx, usedFallback := false }
  else
    match promiseAny executors with
    | .ok r => { result := .ok r, finalTx := tx, usedFallback := false }
    | .error _ =>
        { result := .ok (executeFallback c env.fallback).1,
          finalTx := tx, usedFallback := true }

/-- `TransactionExecutor.executeAuto`: 0 enabled providers runs the
fallback; exactly 1 calls that executor directly on the original
transaction object (no clone); 2 or more runs the hybrid race. -/
def executeAuto (c : Config) (env : NetworkEnv) (tx : Transaction)
    (signers : List String) : DispatchOutcome :=
  let enabledProviders := getEnabledProviders c
  if enabledProviders.length = 0 then
    { result := .ok (executeFallback c env.fallback).1,
      finalTx := tx, usedFallback := true }
  else if enabledProviders.length = 1 then
    match (enabledProviders.headD "").map Char.toLower with
    | "jito" =>
        let rt := JitoExecutor.executeTransaction c env.jito tx signers
        { result := .ok rt.1, finalTx := rt.2, usedFallback := false }
    | "bloxroute" =>
        let rt := BloxRouteExecutor.executeTransaction c env.blox tx signers
        { result := .ok rt.1, finalTx := rt.2, usedFallback := false }
    | "nozomi" =>
        let rt := NozomiExecutor.executeTransaction c env.nozomi tx signers
        { result := .ok rt.1, finalTx := rt.2, usedFallback := false }
    | _ =>
        { result := .ok (executeFallback c env.fallback).1,
          finalTx := tx, usedFallback := true }
  else
    executeHybrid c env tx signers

/-- `TransactionExecutor.determineOptimalStrategy`: more than one enabled
provider gives HYBRID; otherwise the single enabled provider strategy in
check order Jito, BloxRoute, Nozomi; otherwise FALLBACK. -/
def determineOptimalStrategy (c : Config) : ExecutionStrategy :=
  if 1 < (getEnabledProviders c).length then .HYBRID
  else if isJitoEnabled c then .JITO_ONLY
  else if isBloxRouteEnabled c then .BLOXROUTE_ONLY
  else if isNozomiEnabled c then .NOZOMI_ONLY
  else .FALLBACK

/-- `TransactionExecutor.executeWithStrategy`: the single-provider cases
re-check enablement and throw an `ExecutorError` when the provider is not
configured; single-provider calls hand the original transaction object to
the executor. -/
def executeWithStrategy (c : Config) (env : NetworkEnv) (tx : Transaction)
    (signers : List String) : ExecutionStrategy → DispatchOutcome
  | .HYBRID => executeHybrid c env tx signers
  | .JITO_ONLY =>
      if !(isJitoEnabled c) then
        { result := .error "Jito is not enabled or configured",
          finalTx := tx, usedFallback := false }
      else
        let rt := JitoExecutor.executeTransaction c env.jito tx signers
        { result := .ok rt.1, finalTx := rt.2, usedFallback := false }
  | .BLOXROUTE_ONLY =>
      if !(isBloxRouteEnabled c) then
        { result := .error "BloxRoute is not enabled or configured",
          finalTx := tx, usedFallback := false }
      else
        let rt := BloxRouteExecutor.executeTransaction c env.blox tx signers
        { result := .ok rt.1, finalTx := rt.2, usedFallback := false }
  | .NOZOMI_ONLY =>
      if !(isNozomiEnabled c) then
        { result := .error "Nozomi is not enabled or configured",
          finalTx := tx, usedFallback := false }
      else
        let rt := NozomiExecutor.executeTransaction c env.nozomi tx signers
        { result := .ok rt.1, finalTx := rt.2, usedFallback := false }
  | .FALLBACK =>
      { result := .ok (executeFallback c env.fallback).1,
        finalTx := tx, usedFallback := true }
  | .AUTO => executeAuto c env tx signers

/-- The try/catch tail of `TransactionExecutor.executeTransaction`:
a fulfilled success gets the strategy attached; a fulfilled failure is
rethrown as `ExecutorError(result.error || default)` and caught; a thrown
error is caught. All three terminate as a returned `ExecutionResult`. -/
def finishResult (strategy : ExecutionStrategy) :
    Except String ExecutionResult → ExecutionResult
  | .ok r =>
      if r.success then { r with strategy := some strategy }
      else
        { success := false,
          error := some (jsOr r.error "Transaction execution failed"),
          strategy := some strategy }
  | .error e =>
      { success := false, error := some e, strategy := some strategy }

/-- Result of one complete `executeTransaction` call: the caller-visible
`ExecutionResult`, the final state of the caller transaction object, and
whether the Direct Fallback path ran. -/
structure RunOutcome where
  result : ExecutionResult
  finalTx : Transaction
  usedFallback : Bool
deriving Repr

/-- `TransactionExecutor.executeTransaction` (src/core/TransactionExecutor.ts,
public entry point): pick the optimal strategy, dispatch, and convert every
outcome — fulfilled success, fulfilled failure, thrown error — into exactly
one returned `ExecutionResult` carrying the chosen strategy. -/
def executeTransaction (c : Config) (env : NetworkEnv) (tx : Transaction)
    (signers : List String) : RunOutcome :=
  let strategy := determineOptimalStrategy c
  let d := executeWithStrategy c env tx signers strategy
  { result := finishResult strategy d.result,
    finalTx := d.finalTx, usedFallback := d.usedFallback }

end TransactionExecutor

open TransactionExecutor

/-! Specification vocabulary: helpers used only to state and check
properties, not part of the embedded program. -/

/-- `pat` is a prefix of `s` (character lists). -/
def listStartsWith : List Char → List Char → Bool
  | _, [] => true
  | [], _ :: _ => false
  | a :: as, b :: bs => a == b && listStartsWith as bs

/-- `pat` occurs contiguously somewhere in `s` (character lists). -/
def containsSub : List Char → List Char → Bool
  | [], pat => listStartsWith [] pat
  | s@(_ :: tl), pat => listStartsWith s pat || containsSub tl pat

/-- Decidable substring test on strings. -/
def containsSubstr (s pat : String) : Bool :=
  containsSub s.data pat.data

/-- The backoff delays the fallback loop requests after the failed attempts
with counter values r+1, r+2, ..., r+k: `[base*(r+1), ..., base*(r+k)]`. -/
def backoffTail (base : Nat) : Nat → Nat → List Nat
  | _, 0 => []
  | r, k + 1 => base * (r + 1) :: backoffTail base (r + 1) k

/-- The outcome of the unique enabled channel executor, used to state the
Single-Channel claims: the executor picked in the check order Jito,
BloxRoute, Nozomi (matching `determineOptimalStrategy`). -/
def singleChannelResult (c : Config) (env : NetworkEnv) (tx : Transaction)
    (signers : List String) : ExecutionResult :=
  if isJitoEnabled c then (JitoExecutor.executeTransaction c env.jito tx signers).1
  else if isBloxRouteEnabled c then (BloxRouteExecutor.executeTransaction c env.blox tx signers).1
  else (NozomiExecutor.executeTransaction c env.nozomi tx signers).1

/-! Concrete fixtures used by the counterexamples and witnesses. -/

/-- A caller payload with a single user instruction and no signatures. -/
def tx0 : Transaction := { instructions := [Instruction.user 0] }

/-- A one-element signer list. -/
def sg : List String := ["signerA"]

/-- Configuration with Jito and BloxRoute enabled and Nozomi disabled. -/
def cfgJitoBlox : Config :=
  { useJito := true, useBloxRoute := true, useNozomi := false,
    jitoTipAmount := 1, bloxRouteFee := 1, nozomiTipAmount := 0,
    bloxRouteAuthHeader := "auth", nozomiApiKey := "", maxRetries := 3,
    walletPubkey := "wallet" }

/-- Configuration with only BloxRoute enabled. -/
def cfgBloxOnly : Config :=
  { useJito := false, useBloxRoute := true, useNozomi := false,
    jitoTipAmount := 0, bloxRouteFee := 1, nozomiTipAmount := 0,
    bloxRouteAuthHeader := "auth", nozomiApiKey := "", maxRetries := 3,
    walletPubkey := "wallet" }

/-- Configuration with no provider enabled. -/
def cfgNone : Config :=
  { useJito := false, useBloxRoute := false, useNozomi := false,
    jitoTipAmount := 0, bloxRouteFee := 0, nozomiTipAmount := 0,
    bloxRouteAuthHeader := "", nozomiApiKey := "", maxRetries := 3,
    walletPubkey := "wallet" }

/-- Jito channel run that fails: the blockhash fetch throws. -/
def jitoDownEnv : JitoExecutor.Env :=
  { latestBlockhash := .error "jito down", bundleAccepted := false,
    bundleError := none, mainTxSig := "", confirmErr := none }

/-- BloxRoute channel run that succeeds end to end. -/
def bloxOkEnv : BloxRouteExecutor.Env :=
  { latestBlockhash := .ok ("bh1", 10), sendResult := .ok "sigBlox",
    confirmErr := none }

/-- BloxRoute channel run that fails at submission. -/
def bloxDownEnv : BloxRouteExecutor.Env :=
  { latestBlockhash := .ok ("bh1", 10), sendResult := .error "blox down",
    confirmErr := none }

/-- Nozomi channel run whose outcomes are never consulted (channel disabled). -/
def nozomiIdleEnv : NozomiExecutor.Env :=
  { validator := "v1", latestBlockhash := .error "unused",
    postResult := .error "unused" }

/-- Fallback attempt that succeeds. -/
def fbOkEnv : FallbackAttemptEnv :=
  { latestBlockhash := .ok ("bh2", 11), sendResult := .ok "sigFb",
    confirmErr := none }

/-- Fallback attempt that fails at submission. -/
def fbFailEnv : FallbackAttemptEnv :=
  { latestBlockhash := .ok ("bh2", 11), sendResult := .error "rpc down",
    confirmErr := none }

/-- Environment for the first-success-wins scenario: the Jito attempt
settles first (t = 50) with a failure, the BloxRoute attempt settles later
(t = 80) with a success; every fallback attempt would succeed. -/
def envFirstFail : NetworkEnv :=
  { jito := jitoDownEnv, jitoTime := 50, blox := bloxOkEnv, bloxTime := 80,
    nozomi := nozomiIdleEnv, nozomiTime := 0, fallback := fun _ => fbOkEnv }

/-- Environment where both enabled channels fail (Jito at t = 50, BloxRoute
at t = 80) and every fallback attempt would succeed. -/
def envAllFailFbOk : NetworkEnv :=
  { jito := jitoDownEnv, jitoTime := 50, blox := bloxDownEnv, bloxTime := 80,
    nozomi := nozomiIdleEnv, nozomiTime := 0, fallback := fun _ => fbOkEnv }

/-- Environment where both enabled channels fail and every fallback attempt
fails as well. -/
def envAllFailFbFail : NetworkEnv :=
  { jito := jitoDownEnv, jitoTime := 50, blox := bloxDownEnv, bloxTime := 80,
    nozomi := nozomiIdleEnv, nozomiTime := 0, fallback := fun _ => fbFailEnv }

/-- Environment for single-channel BloxRoute runs: the channel succeeds. -/
def envBloxOk : NetworkEnv :=
  { jito := jitoDownEnv, jitoTime := 0, blox := bloxOkEnv, bloxTime := 0,
    nozomi := nozomiIdleEnv, nozomiTime := 0, fallback := fun _ => fbOkEnv }

/-- Environment for single-channel BloxRoute runs: the channel fails at
submission; every fallback attempt would succeed. -/
def envBloxDown : NetworkEnv :=
  { jito := jitoDownEnv, jitoTime := 0, blox := bloxDownEnv, bloxTime := 0,
    nozomi := nozomiIdleEnv, nozomiTime := 0, fallback := fun _ => fbOkEnv }

/-- Fallback attempt sequence: attempt 1 (counter 0) fails, later attempts
succeed. -/
def fbSeqEnv : Nat → FallbackAttemptEnv :=
  fun n => if n = 0 then fbFailEnv else fbOkEnv

/-- Configuration with the BloxRoute use-flag set and a positive fee, but an
empty auth header. -/
def cfgFlagOnly : Config :=
  { useJito := false, useBloxRoute := true, useNozomi := false,
    jitoTipAmount := 0, bloxRouteFee := 1, nozomiTipAmount := 0,
    bloxRouteAuthHeader := "", nozomiApiKey := "", maxRetries := 3,
    walletPubkey := "wallet" }

/-! Helper lemmas about the embedded operations, shared by the claim
theorems below. -/

/-- The fallback loop when every attempt fails: it runs `maxRetries`
attempts, requests the backoff delays `base * 1, ..., base * (maxRetries - 1)`
after the non-final failures, and terminates with a failure carrying the
final attempt error and `retryCount = maxRetries`. -/
theorem fallbackLoop_allFail (attempt : Nat → Except String String)
    (err : Nat → String) (hfail : ∀ n, attempt n = .error (err n)) (m : Nat) :
    ∀ fuel r ds, r < m → m ≤ r + fuel →
      fallbackLoop attempt m fuel r ds =
        ({ success := false,
           error := some ("Fallback execution failed: " ++ err (m - 1)),
           provider := some "fallback", retryCount := some m },
         ds ++ backoffTail 1000 r (m - 1 - r)) := by
  intro fuel
  induction fuel with
  | zero => intro r ds hr hf; omega
  | succ f ih =>
      intro r ds hr hf
      rw [fallbackLoop, if_pos hr, hfail r]
      dsimp only
      by_cases hm : m ≤ r + 1
      · have hm1 : m = r + 1 := by omega
        subst hm1
        rw [if_pos hm]
        simp [backoffTail, Nat.sub_self]
      · rw [if_neg hm, ih (r + 1) (ds ++ [1000 * (r + 1)]) (by omega) (by omega)]
        have hk : m - 1 - r = (m - 1 - (r + 1)) + 1 := by omega
        rw [hk]
        simp [backoffTail]

/-- The fallback loop when the attempt with counter value `j` succeeds and
every earlier attempt fails: it returns a success with
`retryCount = j` after requesting the delays `base * (r+1), ..., base * j`. -/
theorem fallbackLoop_success (attempt : Nat → Except String String)
    (err : Nat → String) (sig : String) (m j : Nat)
    (hj : attempt j = .ok sig)
    (hfail : ∀ k, k < j → attempt k = .error (err k)) :
    ∀ fuel r ds, r ≤ j → j < m → j < r + fuel →
      fallbackLoop attempt m fuel r ds =
        ({ success := true, signature := some sig,
           provider := some "fallback", retryCount := some j },
         ds ++ backoffTail 1000 r (j - r)) := by
  intro fuel
  induction fuel with
  | zero => intro r ds hr hjm hf; omega
  | succ f ih =>
      intro r ds hr hjm hf
      rw [fallbackLoop, if_pos (by omega : r < m)]
      rcases Nat.eq_or_lt_of_le hr with hrj | hrj
      · subst hrj
        rw [hj]
        simp [backoffTail, Nat.sub_self]
      · rw [hfail r hrj]
        dsimp only
        rw [if_neg (by omega : ¬ m ≤ r + 1),
          ih (r + 1) (ds ++ [1000 * (r + 1)]) (by omega) hjm (by omega)]
        have hk : j - r = (j - (r + 1)) + 1 := by omega
        rw [hk]
        simp [backoffTail]

/-- The effective retry bound is positive: 0 falls back to
`MAX_RETRY_ATTEMPTS`. -/
theorem effectiveMaxRetries_pos (c : Config) : 0 < effectiveMaxRetries c := by
  unfold effectiveMaxRetries MAX_RETRY_ATTEMPTS
  split <;> omega

/-- `executeFallback` when every attempt fails. -/
theorem executeFallback_allFail (c : Config) (envs : Nat → FallbackAttemptEnv)
    (err : Nat → String)
    (hfail : ∀ n, fallbackAttempt (envs n) = .error (err n)) :
    executeFallback c envs =
      ({ success := false,
         error := some ("Fallback execution failed: " ++ err (effectiveMaxRetries c - 1)),
         provider := some "fallback", retryCount := some (effectiveMaxRetries c) },
       backoffTail 1000 0 (effectiveMaxRetries c - 1)) := by
  unfold executeFallback
  rw [fallbackLoop_allFail _ err hfail _ _ 0 [] (effectiveMaxRetries_pos c) (by omega)]
  simp

/-- `executeFallback` when the attempt with counter value `j` succeeds and
every earlier attempt fails. -/
theorem executeFallback_success (c : Config) (envs : Nat → FallbackAttemptEnv)
    (err : Nat → String) (sig : String) (j : Nat)
    (hj : fallbackAttempt (envs j) = .ok sig)
    (hfail : ∀ k, k < j → fallbackAttempt (envs k) = .error (err k))
    (hjm : j < effectiveMaxRetries c) :
    executeFallback c envs =
      ({ success := true, signature := some sig,
         provider := some "fallback", retryCount := some j },
       backoffTail 1000 0 j) := by
  unfold executeFallback
  rw [fallbackLoop_success _ err sig _ j hj hfail _ 0 [] (by omega) hjm (by omega)]
  simp

/-- Length of a backoff delay list. -/
theorem backoffTail_length (base : Nat) :
    ∀ k r, (backoffTail base r k).length = k := by
  intro k
  induction k with
  | zero => intro r; rfl
  | succ n ih => intro r; simp [backoffTail, ih (r + 1)]

/-- Elements of a backoff delay list: the i-th requested delay (0-based)
is `base * (r + 1 + i)`. -/
theorem backoffTail_getElem (base : Nat) :
    ∀ k r i, (backoffTail base r k)[i]? =
      if i < k then some (base * (r + 1 + i)) else none := by
  intro k
  induction k with
  | zero => intro r i; simp [backoffTail]
  | succ n ih =>
      intro r i
      cases i with
      | zero => simp [backoffTail]
      | succ i =>
          rw [backoffTail]
          simp only [List.getElem?_cons_succ, ih (r + 1) i]
          by_cases hi : i < n
          · rw [if_pos hi, if_pos (by omega)]
            have : r + 1 + 1 + i = r + 1 + (i + 1) := by omega
            rw [this]
          · rw [if_neg hi, if_neg (by omega)]

/-- The final transaction object of a whole call is the one of the
dispatched strategy. -/
theorem executeTransaction_finalTx (c : Config) (env : NetworkEnv)
    (tx : Transaction) (signers : List String) :
    (executeTransaction c env tx signers).finalTx =
      (executeWithStrategy c env tx signers (determineOptimalStrategy c)).finalTx := rfl

/-- The fallback flag of a whole call is the one of the dispatched strategy. -/
theorem executeTransaction_usedFallback (c : Config) (env : NetworkEnv)
    (tx : Transaction) (signers : List String) :
    (executeTransaction c env tx signers).usedFallback =
      (executeWithStrategy c env tx signers (determineOptimalStrategy c)).usedFallback := rfl

/-- The hybrid dispatcher never mutates the caller transaction object:
the channel executors receive clones. -/
theorem executeHybrid_finalTx (c : Config) (env : NetworkEnv)
    (tx : Transaction) (signers : List String) :
    (executeHybrid c env tx signers).finalTx = tx := by
  unfold executeHybrid
  dsimp only
  split
  · rfl
  · split <;> rfl

/-- The Nozomi executor never mutates the transaction object it receives:
it clones internally. -/
theorem nozomiExecutor_finalTx (c : Config) (env : NozomiExecutor.Env)
    (tx : Transaction) (signers : List String) :
    (NozomiExecutor.executeTransaction c env tx signers).2 = tx := by
  unfold NozomiExecutor.executeTransaction
  rcases henv : env.latestBlockhash with e | bh
  · rfl
  · dsimp only
    split
    · rfl
    · rcases hp : env.postResult with e | resp
      · rfl
      · obtain ⟨res, errm⟩ := resp
        rcases res with _ | s <;> rfl

/-- C1: the claim says that in a Hybrid execution the first attempt to
report success becomes the Execution Result and a failing attempt never
does when some attempt eventually succeeds. Evaluation at the failing
input refutes this: with Jito and BloxRoute enabled, the Jito attempt
settles first (t = 50) with a failure while the BloxRoute attempt would
succeed (t = 80), yet the Execution Result is the Jito failure — the
channel executors resolve failures instead of rejecting, so `promiseAny`
resolves with the first settled result regardless of its success flag,
contradicting the first-successful-wins comment in `executeHybrid`. -/
theorem C1_hybrid_first_settled_failure_wins :
    (BloxRouteExecutor.executeTransaction cfgJitoBlox envFirstFail.blox
        (cloneTransaction tx0) sg).1.success = true ∧
    (executeTransaction cfgJitoBlox envFirstFail tx0 sg).result.success = false ∧
    (executeTransaction cfgJitoBlox envFirstFail tx0 sg).result.error =
      some "Jito execution failed: jito down" ∧
    (executeTransaction cfgJitoBlox envFirstFail tx0 sg).result.strategy =
      some ExecutionStrategy.HYBRID := by
  decide

/-- C2: the claim says that when every Hybrid channel attempt fails the
dispatcher invokes the Direct Fallback Path and returns its outcome.
Evaluation at the failing input refutes this: both enabled channels fail
and the first fallback attempt would succeed, yet the fallback is never
invoked and the aggregate (first settled) channel failure is returned —
the channel promises never reject, so the all-rejected branch of
`promiseAny` that triggers the fallback is unreachable. -/
theorem C2_all_channels_failed_skips_fallback :
    (JitoExecutor.executeTransaction cfgJitoBlox envAllFailFbOk.jito
        (cloneTransaction tx0) sg).1.success = false ∧
    (BloxRouteExecutor.executeTransaction cfgJitoBlox envAllFailFbOk.blox
        (cloneTransaction tx0) sg).1.success = false ∧
    fallbackAttempt (envAllFailFbOk.fallback 0) = .ok "sigFb" ∧
    (executeTransaction cfgJitoBlox envAllFailFbOk tx0 sg).usedFallback = false ∧
    (executeTransaction cfgJitoBlox envAllFailFbOk tx0 sg).result.success = false ∧
    (executeTransaction cfgJitoBlox envAllFailFbOk tx0 sg).result.error =
      some "Jito execution failed: jito down" := by
  exact ⟨by decide, by decide, rfl, by decide, by decide, by decide⟩

/-- C4 counterexample: the claim says the backoff delay before attempt n
is baseDelay * n and that with maxRetries = 3 all failing the total
requested backoff is 6000 ms. The code requests no delay before attempt 1
and skips the delay after the final failure, so only 1000 and 2000 ms are
requested, totalling 3000 ms, not 6000 ms. -/
theorem C4_counterexample_backoff_total :
    (executeFallback cfgJitoBlox fun _ => fbFailEnv).2 = [1000, 2000] ∧
    (executeFallback cfgJitoBlox fun _ => fbFailEnv).2.sum = 3000 ∧
    ¬ (executeFallback cfgJitoBlox fun _ => fbFailEnv).2.sum = 6000 := by
  decide

/-- C4 amended: in the Direct Fallback Path no delay is requested before
attempt 1, and the delay requested before attempt n (2 ≤ n ≤ maxRetries,
i.e. after the (n-1)-th failure) equals baseDelay * (n - 1); when every
attempt fails, exactly maxRetries - 1 delays are requested, the i-th
(0-based, preceding attempt i + 2) being 1000 * (i + 1) ms. -/
theorem C4_amended_linear_backoff (c : Config) (envs : Nat → FallbackAttemptEnv)
    (err : Nat → String)
    (hfail : ∀ n, fallbackAttempt (envs n) = .error (err n)) :
    (executeFallback c envs).2.length = effectiveMaxRetries c - 1 ∧
    ∀ i, ((executeFallback c envs).2)[i]? =
      if i < effectiveMaxRetries c - 1 then some (1000 * (i + 1)) else none := by
  rw [executeFallback_allFail c envs err hfail]
  refine ⟨backoffTail_length 1000 _ 0, fun i => ?_⟩
  have h01 : 0 + 1 + i = i + 1 := by omega
  rw [backoffTail_getElem 1000 _ 0 i, h01]

/-- Witness for C4 amended at a concrete all-fail run with maxRetries = 3. -/
theorem C4_amended_linear_backoff_witness :
    (executeFallback cfgJitoBlox fun _ => fbFailEnv).2.length = 2 ∧
    ((executeFallback cfgJitoBlox fun _ => fbFailEnv).2)[0]? = some 1000 ∧
    ((executeFallback cfgJitoBlox fun _ => fbFailEnv).2)[1]? = some 2000 := by
  have h := C4_amended_linear_backoff cfgJitoBlox (fun _ => fbFailEnv)
    (fun _ => "rpc down") (fun _ => rfl)
  exact ⟨h.1.trans (by decide), (h.2 0).trans (by decide), (h.2 1).trans (by decide)⟩

/-- C6 counterexample: the claim says that when every Hybrid channel fails
and the fallback also fails, the final error message enumerates every
channel failure string plus the fallback one. At this input both channels
fail and every fallback attempt fails, yet the final error is exactly the
first settled channel failure string: it does not contain the BloxRoute
failure string, so no enumeration happens. -/
theorem C6_counterexample_no_error_enumeration :
    (JitoExecutor.executeTransaction cfgJitoBlox envAllFailFbFail.jito
        (cloneTransaction tx0) sg).1.error = some "Jito execution failed: jito down" ∧
    (BloxRouteExecutor.executeTransaction cfgJitoBlox envAllFailFbFail.blox
        (cloneTransaction tx0) sg).1.error = some "BloxRoute execution failed: blox down" ∧
    fallbackAttempt (envAllFailFbFail.fallback 0) = .error "rpc down" ∧
    (executeTransaction cfgJitoBlox envAllFailFbFail tx0 sg).result.success = false ∧
    (executeTransaction cfgJitoBlox envAllFailFbFail tx0 sg).result.error =
      some "Jito execution failed: jito down" ∧
    containsSubstr "Jito execution failed: jito down"
      "BloxRoute execution failed: blox down" = false := by
  exact ⟨by decide, by decide, rfl, by decide, by decide, by decide⟩

/-- C6 amended: per-channel error strings are collected into a local array
inside `promiseAny` but discarded; when the Direct Fallback path exhausts
its retries its terminal failure message is exactly
"Fallback execution failed: " followed by the final attempt error string
alone — earlier attempt errors and channel errors are not included. -/
theorem C6_amended_single_error_message (c : Config)
    (envs : Nat → FallbackAttemptEnv) (err : Nat → String)
    (hfail : ∀ n, fallbackAttempt (envs n) = .error (err n)) :
    (executeFallback c envs).1.error =
      some ("Fallback execution failed: " ++ err (effectiveMaxRetries c - 1)) := by
  rw [executeFallback_allFail c envs err hfail]

/-- Witness for C6 amended at a concrete all-fail run. -/
theorem C6_amended_single_error_message_witness :
    (executeFallback cfgJitoBlox fun _ => fbFailEnv).1.error =
      some "Fallback execution failed: rpc down" := by
  have h := C6_amended_single_error_message cfgJitoBlox (fun _ => fbFailEnv)
    (fun _ => "rpc down") (fun _ => rfl)
  exact h.trans (by decide)

/-- C5: strategy selection is a pure, deterministic function of the set of
enabled channels: zero enabled channels yield the FALLBACK strategy,
exactly one enabled channel yields that channel single-channel strategy,
two or more yield HYBRID over all enabled channels, and any two
configurations with the same enablement yield the same strategy. -/
theorem C5_strategy_selection (c : Config) :
    ((getEnabledProviders c).length = 0 →
      determineOptimalStrategy c = ExecutionStrategy.FALLBACK) ∧
    ((getEnabledProviders c).length = 1 →
      (isJitoEnabled c = true →
        determineOptimalStrategy c = ExecutionStrategy.JITO_ONLY) ∧
      (isBloxRouteEnabled c = true →
        determineOptimalStrategy c = ExecutionStrategy.BLOXROUTE_ONLY) ∧
      (isNozomiEnabled c = true →
        determineOptimalStrategy c = ExecutionStrategy.NOZOMI_ONLY)) ∧
    (2 ≤ (getEnabledProviders c).length →
      determineOptimalStrategy c = ExecutionStrategy.HYBRID) ∧
    ∀ c2 : Config, isJitoEnabled c2 = isJitoEnabled c →
      isBloxRouteEnabled c2 = isBloxRouteEnabled c →
      isNozomiEnabled c2 = isNozomiEnabled c →
      determineOptimalStrategy c2 = determineOptimalStrategy c := by
  have hdet : ∀ c2 : Config, isJitoEnabled c2 = isJitoEnabled c →
      isBloxRouteEnabled c2 = isBloxRouteEnabled c →
      isNozomiEnabled c2 = isNozomiEnabled c →
      determineOptimalStrategy c2 = determineOptimalStrategy c := by
    intro c2 hj hb hn
    unfold determineOptimalStrategy getEnabledProviders
    rw [hj, hb, hn]
  refine ⟨?_, ?_, ?_, hdet⟩ <;>
    cases hj : isJitoEnabled c <;> cases hb : isBloxRouteEnabled c <;>
      cases hn : isNozomiEnabled c <;>
      simp_all [determineOptimalStrategy, getEnabledProviders]

/-- Witness for C5 at concrete configurations: none enabled gives
FALLBACK, exactly BloxRoute enabled gives the BloxRoute strategy. -/
theorem C5_strategy_selection_witness :
    determineOptimalStrategy cfgNone = ExecutionStrategy.FALLBACK ∧
    determineOptimalStrategy cfgBloxOnly = ExecutionStrategy.BLOXROUTE_ONLY := by
  refine ⟨(C5_strategy_selection cfgNone).1 (by decide), ?_⟩
  exact ((C5_strategy_selection cfgBloxOnly).2.1 (by decide)).2.1 (by decide)

/-- C8: every call returns exactly one ExecutionResult and never raises
past its boundary: the result always carries the chosen strategy, a
failure always carries an error message, and a fault thrown by the
dispatched path is converted into a failure result carrying that fault
message and the strategy. -/
theorem C8_total_result_boundary (c : Config) (env : NetworkEnv)
    (tx : Transaction) (signers : List String) :
    (executeTransaction c env tx signers).result.strategy =
      some (determineOptimalStrategy c) ∧
    ((executeTransaction c env tx signers).result.success = false →
      (executeTransaction c env tx signers).result.error ≠ none) ∧
    ∀ e, (executeWithStrategy c env tx signers (determineOptimalStrategy c)).result =
        .error e →
      (executeTransaction c env tx signers).result =
        { success := false, error := some e,
          strategy := some (determineOptimalStrategy c) } := by
  unfold executeTransaction
  dsimp only
  rcases hd : (executeWithStrategy c env tx signers (determineOptimalStrategy c)).result
    with e | r
  · refine ⟨rfl, fun _ => by simp [finishResult], fun e2 he2 => ?_⟩
    injection he2 with h2
    subst h2
    rfl
  · by_cases hs : r.success
    · refine ⟨?_, fun hfalse => ?_, fun e2 he2 => ?_⟩
      · simp [finishResult, hs]
      · exfalso
        simp [finishResult, hs] at hfalse
      · simp at he2
    · refine ⟨?_, fun _ => ?_, fun e2 he2 => ?_⟩
      · simp [finishResult, hs]
      · simp [finishResult, hs]
      · simp at he2

/-- Witness for C8 at a concrete run where the fallback path fails. -/
theorem C8_total_result_boundary_witness :
    (executeTransaction cfgNone envAllFailFbFail tx0 sg).result.error ≠ none ∧
    (executeTransaction cfgNone envAllFailFbFail tx0 sg).result.strategy =
      some ExecutionStrategy.FALLBACK := by
  have h := C8_total_result_boundary cfgNone envAllFailFbFail tx0 sg
  exact ⟨h.2.1 (by decide), h.1.trans (by decide)⟩

/-- C9: in the Direct Fallback Path, a success at attempt n (1-indexed)
reports retryCount = n - 1 (0 when the first attempt succeeds), and
exhaustion after maxRetries failing attempts reports a failure with
retryCount = maxRetries. -/
theorem C9_fallback_retry_count (c : Config) (envs : Nat → FallbackAttemptEnv) :
    (∀ (err : Nat → String) (sig : String) (n : Nat),
      1 ≤ n → n ≤ effectiveMaxRetries c →
      (∀ k, k < n - 1 → fallbackAttempt (envs k) = .error (err k)) →
      fallbackAttempt (envs (n - 1)) = .ok sig →
      (executeFallback c envs).1.success = true ∧
      (executeFallback c envs).1.retryCount = some (n - 1)) ∧
    ∀ err : Nat → String,
      (∀ k, fallbackAttempt (envs k) = .error (err k)) →
      (executeFallback c envs).1.success = false ∧
      (executeFallback c envs).1.retryCount = some (effectiveMaxRetries c) := by
  constructor
  · intro err sig n h1 h2 hfail hok
    rw [executeFallback_success c envs err sig (n - 1) hok hfail (by omega)]
    exact ⟨rfl, rfl⟩
  · intro err hfail
    rw [executeFallback_allFail c envs err hfail]
    exact ⟨rfl, rfl⟩

/-- Witness for C9: attempt 1 fails and attempt 2 succeeds, so
retryCount = 1. -/
theorem C9_fallback_retry_count_witness :
    (executeFallback cfgJitoBlox fbSeqEnv).1.success = true ∧
    (executeFallback cfgJitoBlox fbSeqEnv).1.retryCount = some 1 := by
  exact (C9_fallback_retry_count cfgJitoBlox fbSeqEnv).1
    (fun _ => "rpc down") "sigFb" 2 (by omega) (by decide)
    (fun k hk => by
      have hk0 : k = 0 := by omega
      subst hk0
      rfl)
    rfl

/-- C10: a channel is enabled exactly when its use-flag is set, its
tip/fee amount is strictly positive, and (for BloxRoute and Nozomi) its
credential is a non-empty string; the use-flag alone never enables
BloxRoute or Nozomi, and a non-positive tip/fee disables any channel
regardless of its flag. -/
theorem C10_channel_enablement (c : Config) :
    (isJitoEnabled c = true ↔ c.useJito = true ∧ 0 < c.jitoTipAmount) ∧
    (isBloxRouteEnabled c = true ↔
      c.useBloxRoute = true ∧ c.bloxRouteAuthHeader ≠ "" ∧ 0 < c.bloxRouteFee) ∧
    (isNozomiEnabled c = true ↔
      c.useNozomi = true ∧ c.nozomiApiKey ≠ "" ∧ 0 < c.nozomiTipAmount) ∧
    (c.bloxRouteAuthHeader = "" → isBloxRouteEnabled c = false) ∧
    (c.nozomiApiKey = "" → isNozomiEnabled c = false) ∧
    (c.jitoTipAmount ≤ 0 → isJitoEnabled c = false) ∧
    (c.bloxRouteFee ≤ 0 → isBloxRouteEnabled c = false) ∧
    (c.nozomiTipAmount ≤ 0 → isNozomiEnabled c = false) := by
  refine ⟨?_, ?_, ?_, fun h => ?_, fun h => ?_, fun h => ?_, fun h => ?_, fun h => ?_⟩
  · simp [isJitoEnabled, and_assoc]
  · simp [isBloxRouteEnabled, and_assoc]
  · simp [isNozomiEnabled, and_assoc]
  · simp [isBloxRouteEnabled, h]
  · simp [isNozomiEnabled, h]
  · simp [isJitoEnabled, decide_eq_false (not_lt.mpr h)]
  · simp [isBloxRouteEnabled, decide_eq_false (not_lt.mpr h)]
  · simp [isNozomiEnabled, decide_eq_false (not_lt.mpr h)]

/-- Witness for C10: the BloxRoute use-flag with a positive fee but an
empty auth header does not enable the channel. -/
theorem C10_channel_enablement_witness :
    isBloxRouteEnabled cfgFlagOnly = false ∧
    cfgFlagOnly.useBloxRoute = true := by
  exact ⟨(C10_channel_enablement cfgFlagOnly).2.2.2.1 rfl, rfl⟩

/-- The BloxRoute executor mutates the transaction object it receives:
once the blockhash fetch succeeds (with the auth header configured and a
positive fee), the object ends with the blockhash and fee payer set, the
tip transfer appended, and the signatures replaced — on every subsequent
submission outcome. -/
theorem bloxRouteExecutor_mutates (c : Config) (env : BloxRouteExecutor.Env)
    (tx : Transaction) (signers : List String) (bh : String) (hgt : Nat)
    (hauth : ¬ c.bloxRouteAuthHeader = "") (hfee : 0 < c.bloxRouteFee)
    (hbh : env.latestBlockhash = .ok (bh, hgt)) :
    (BloxRouteExecutor.executeTransaction c env tx signers).2 =
      { instructions := tx.instructions ++
          [Instruction.transfer BloxRouteExecutor.bloxRouteTipWallet
            (c.bloxRouteFee * LAMPORTS_PER_SOL)],
        recentBlockhash := some bh, feePayer := some c.walletPubkey,
        signedBy := signers } := by
  have htip : 0 < c.bloxRouteFee * LAMPORTS_PER_SOL :=
    mul_pos hfee (by norm_num [LAMPORTS_PER_SOL])
  unfold BloxRouteExecutor.executeTransaction
  rw [if_neg hauth, hbh]
  dsimp only
  rw [if_pos htip]
  rcases hs : env.sendResult with e | s
  · rfl
  · rcases hc : env.confirmErr with _ | err <;> rfl

/-- The Jito executor mutates the transaction object it receives: once the
blockhash fetch succeeds, the object ends with the blockhash and fee payer
set and the signatures replaced — on every subsequent bundle outcome. -/
theorem jitoExecutor_mutates (c : Config) (env : JitoExecutor.Env)
    (tx : Transaction) (signers : List String) (bh : String) (hgt : Nat)
    (hbh : env.latestBlockhash = .ok (bh, hgt)) :
    (JitoExecutor.executeTransaction c env tx signers).2 =
      { tx with recentBlockhash := some bh, feePayer := some c.walletPubkey,
                signedBy := signers } := by
  unfold JitoExecutor.executeTransaction
  rw [hbh]
  dsimp only
  by_cases hba : env.bundleAccepted
  · rw [if_pos hba]
    rcases hc : env.confirmErr with _ | err <;> rfl
  · rw [if_neg hba]

/-- C3 counterexample: the claim says the original payload is never
mutated under any strategy. With only BloxRoute enabled (Single-Channel
strategy) the original transaction object is handed to the BloxRoute
executor directly and mutated: its blockhash is set and the tip transfer
is appended, so the final object differs from the passed payload. -/
theorem C3_counterexample_single_channel_mutation :
    (executeTransaction cfgBloxOnly envBloxOk tx0 sg).finalTx ≠ tx0 ∧
    (executeTransaction cfgBloxOnly envBloxOk tx0 sg).finalTx.recentBlockhash =
      some "bh1" ∧
    (executeTransaction cfgBloxOnly envBloxOk tx0 sg).finalTx.instructions.length = 2 := by
  have hstrat : determineOptimalStrategy cfgBloxOnly =
      ExecutionStrategy.BLOXROUTE_ONLY := by decide
  have hben : isBloxRouteEnabled cfgBloxOnly = true := by decide
  have hw : (executeTransaction cfgBloxOnly envBloxOk tx0 sg).finalTx =
      (BloxRouteExecutor.executeTransaction cfgBloxOnly envBloxOk.blox tx0 sg).2 := by
    rw [executeTransaction_finalTx, hstrat]
    simp [executeWithStrategy, hben]
  have hmut := bloxRouteExecutor_mutates cfgBloxOnly envBloxOk.blox tx0 sg "bh1" 10
    (by decide) (by decide) rfl
  rw [hw, hmut]
  refine ⟨?_, rfl, by simp [tx0]⟩
  intro h
  have hbh := congrArg Transaction.recentBlockhash h
  simp [tx0] at hbh

/-- C3 amended: the payload is protected by cloning in the Hybrid and
Direct Fallback strategies (and by the Nozomi executor, which clones
internally), so the caller object is unchanged there; but under the
Single-Channel strategy the original object is handed to the executor,
and the BloxRoute and Jito executors mutate it in place (blockhash and
fee payer set, tip transfer appended by BloxRoute, signatures replaced)
whenever their blockhash fetch succeeds. -/
theorem C3_amended_clone_discipline (c : Config) (env : NetworkEnv)
    (tx : Transaction) (signers : List String) :
    (2 ≤ (getEnabledProviders c).length →
      (executeTransaction c env tx signers).finalTx = tx) ∧
    ((getEnabledProviders c).length = 0 →
      (executeTransaction c env tx signers).finalTx = tx) ∧
    (getEnabledProviders c = ["Nozomi"] →
      (executeTransaction c env tx signers).finalTx = tx) ∧
    (getEnabledProviders c = ["BloxRoute"] →
      ∀ bh hgt, env.blox.latestBlockhash = .ok (bh, hgt) →
        (executeTransaction c env tx signers).finalTx.recentBlockhash = some bh ∧
        (executeTransaction c env tx signers).finalTx.instructions =
          tx.instructions ++ [Instruction.transfer BloxRouteExecutor.bloxRouteTipWallet
            (c.bloxRouteFee * LAMPORTS_PER_SOL)] ∧
        (executeTransaction c env tx signers).finalTx.signedBy = signers) ∧
    (getEnabledProviders c = ["Jito"] →
      ∀ bh hgt, env.jito.latestBlockhash = .ok (bh, hgt) →
        (executeTransaction c env tx signers).finalTx.recentBlockhash = some bh ∧
        (executeTransaction c env tx signers).finalTx.signedBy = signers) := by
  refine ⟨fun h2 => ?_, fun h0 => ?_, fun hN => ?_, fun hB bh hgt hbh => ?_,
    fun hJ bh hgt hbh => ?_⟩
  · have hstrat : determineOptimalStrategy c = ExecutionStrategy.HYBRID := by
      unfold determineOptimalStrategy
      rw [if_pos (by omega)]
    rw [executeTransaction_finalTx, hstrat]
    exact executeHybrid_finalTx c env tx signers
  · cases hj : isJitoEnabled c <;> cases hb : isBloxRouteEnabled c <;>
      cases hn : isNozomiEnabled c <;>
      first
      | (exfalso; simp [getEnabledProviders, hj, hb, hn] at h0; done)
      | (have hstrat : determineOptimalStrategy c = ExecutionStrategy.FALLBACK := by
           simp [determineOptimalStrategy, getEnabledProviders, hj, hb, hn]
         rw [executeTransaction_finalTx, hstrat]
         rfl)
  · cases hj : isJitoEnabled c <;> cases hb : isBloxRouteEnabled c <;>
      cases hn : isNozomiEnabled c <;>
      first
      | (exfalso; simp [getEnabledProviders, hj, hb, hn] at hN; done)
      | (have hstrat : determineOptimalStrategy c = ExecutionStrategy.NOZOMI_ONLY := by
           simp [determineOptimalStrategy, getEnabledProviders, hj, hb, hn]
         rw [executeTransaction_finalTx, hstrat]
         simp [executeWithStrategy, hn, nozomiExecutor_finalTx])
  · cases hj : isJitoEnabled c <;> cases hb : isBloxRouteEnabled c <;>
      cases hn : isNozomiEnabled c <;>
      first
      | (exfalso; simp [getEnabledProviders, hj, hb, hn] at hB; done)
      | (have hstrat : determineOptimalStrategy c = ExecutionStrategy.BLOXROUTE_ONLY := by
           simp [determineOptimalStrategy, getEnabledProviders, hj, hb, hn]
         have hb2 := hb
         simp only [isBloxRouteEnabled, Bool.and_eq_true, Bool.not_eq_true',
           beq_eq_false_iff_ne, ne_eq, decide_eq_true_eq] at hb2
         have hw : (executeTransaction c env tx signers).finalTx =
             (BloxRouteExecutor.executeTransaction c env.blox tx signers).2 := by
           rw [executeTransaction_finalTx, hstrat]
           simp [executeWithStrategy, hb]
         rw [hw, bloxRouteExecutor_mutates c env.blox tx signers bh hgt
           hb2.1.2 hb2.2 hbh]
         exact ⟨rfl, rfl, rfl⟩)
  · cases hj : isJitoEnabled c <;> cases hb : isBloxRouteEnabled c <;>
      cases hn : isNozomiEnabled c <;>
      first
      | (exfalso; simp [getEnabledProviders, hj, hb, hn] at hJ; done)
      | (have hstrat : determineOptimalStrategy c = ExecutionStrategy.JITO_ONLY := by
           simp [determineOptimalStrategy, getEnabledProviders, hj, hb, hn]
         have hw : (executeTransaction c env tx signers).finalTx =
             (JitoExecutor.executeTransaction c env.jito tx signers).2 := by
           rw [executeTransaction_finalTx, hstrat]
           simp [executeWithStrategy, hj]
         rw [hw, jitoExecutor_mutates c env.jito tx signers bh hgt hbh]
         exact ⟨rfl, rfl⟩)

/-- Witness for C3 amended: a Hybrid run leaves the caller object
untouched. -/
theorem C3_amended_clone_discipline_witness :
    (executeTransaction cfgJitoBlox envFirstFail tx0 sg).finalTx = tx0 := by
  exact (C3_amended_clone_discipline cfgJitoBlox envFirstFail tx0 sg).1 (by decide)

/-- C7: under the Single-Channel strategy (exactly one enabled channel), a
failing channel attempt becomes the Execution Result — wrapped by the
top-level handler with that channel error string — and the Direct
Fallback Path is never invoked. -/
theorem C7_single_channel_no_fallback (c : Config) (env : NetworkEnv)
    (tx : Transaction) (signers : List String)
    (h1 : (getEnabledProviders c).length = 1) :
    (executeTransaction c env tx signers).usedFallback = false ∧
    ((singleChannelResult c env tx signers).success = false →
      (executeTransaction c env tx signers).result.success = false ∧
      (executeTransaction c env tx signers).result.error =
        some (jsOr (singleChannelResult c env tx signers).error
          "Transaction execution failed")) := by
  cases hj : isJitoEnabled c <;> cases hb : isBloxRouteEnabled c <;>
    cases hn : isNozomiEnabled c <;>
    first
    | (exfalso; simp [getEnabledProviders, hj, hb, hn] at h1; done)
    | (have hstrat : determineOptimalStrategy c = ExecutionStrategy.JITO_ONLY := by
         simp [determineOptimalStrategy, getEnabledProviders, hj, hb, hn]
       have hscr : singleChannelResult c env tx signers =
           (JitoExecutor.executeTransaction c env.jito tx signers).1 := by
         simp [singleChannelResult, hj]
       have hdisp : executeWithStrategy c env tx signers (determineOptimalStrategy c) =
           { result := .ok (JitoExecutor.executeTransaction c env.jito tx signers).1,
             finalTx := (JitoExecutor.executeTransaction c env.jito tx signers).2,
             usedFallback := false } := by
         rw [hstrat]
         simp [executeWithStrategy, hj]
       refine ⟨by rw [executeTransaction_usedFallback, hdisp], fun hfail => ?_⟩
       rw [hscr] at hfail
       unfold executeTransaction
       dsimp only
       rw [hdisp, hscr]
       simp [finishResult, hfail])
    | (have hstrat : determineOptimalStrategy c = ExecutionStrategy.BLOXROUTE_ONLY := by
         simp [determineOptimalStrategy, getEnabledProviders, hj, hb, hn]
       have hscr : singleChannelResult c env tx signers =
           (BloxRouteExecutor.executeTransaction c env.blox tx signers).1 := by
         simp [singleChannelResult, hj, hb]
       have hdisp : executeWithStrategy c env tx signers (determineOptimalStrategy c) =
           { result := .ok (BloxRouteExecutor.executeTransaction c env.blox tx signers).1,
             finalTx := (BloxRouteExecutor.executeTransaction c env.blox tx signers).2,
             usedFallback := false } := by
         rw [hstrat]
         simp [executeWithStrategy, hb]
       refine ⟨by rw [executeTransaction_usedFallback, hdisp], fun hfail => ?_⟩
       rw [hscr] at hfail
       unfold executeTransaction
       dsimp only
       rw [hdisp, hscr]
       simp [finishResult, hfail])
    | (have hstrat : determineOptimalStrategy c = ExecutionStrategy.NOZOMI_ONLY := by
         simp [determineOptimalStrategy, getEnabledProviders, hj, hb, hn]
       have hscr : singleChannelResult c env tx signers =
           (NozomiExecutor.executeTransaction c env.nozomi tx signers).1 := by
         simp [singleChannelResult, hj, hb, hn]
       have hdisp : executeWithStrategy c env tx signers (determineOptimalStrategy c) =
           { result := .ok (NozomiExecutor.executeTransaction c env.nozomi tx signers).1,
             finalTx := (NozomiExecutor.executeTransaction c env.nozomi tx signers).2,
             usedFallback := false } := by
         rw [hstrat]
         simp [executeWithStrategy, hn]
       refine ⟨by rw [executeTransaction_usedFallback, hdisp], fun hfail => ?_⟩
       rw [hscr] at hfail
       unfold executeTransaction
       dsimp only
       rw [hdisp, hscr]
       simp [finishResult, hfail])

/-- Witness for C7: with only BloxRoute enabled and the channel failing at
submission, the result is that channel failure and the fallback never
runs. -/
theorem C7_single_channel_no_fallback_witness :
    (executeTransaction cfgBloxOnly envBloxDown tx0 sg).usedFallback = false ∧
    (executeTransaction cfgBloxOnly envBloxDown tx0 sg).result.error =
      some "BloxRoute execution failed: blox down" := by
  have h := C7_single_channel_no_fallback cfgBloxOnly envBloxDown tx0 sg (by decide)
  refine ⟨h.1, ?_⟩
  rw [(h.2 (by decide)).2]
  decide

end PumpFun
